import Mathlib

/-!
Verification of `scripts/ci/prerelease_guard.py` (zeroclaw).

This file gives a shallow embedding of the pre-release gating script and
settles the frozen claims about it.  The embedding follows the source:

* `parse_tag` embeds the Python `parse_tag` function, whose two regexes
  `STABLE_TAG_RE = ^v\d+\.\d+\.\d+$` and
  `PRERELEASE_TAG_RE = ^v\d+\.\d+\.\d+-(alpha|beta|rc)\.\d+$`
  are embedded as deterministic character-list matchers (`matchStable`,
  `matchPre`).  Since every `\d+` group is followed by a non-digit
  delimiter (or end of string), maximal-munch digit reading is exactly the
  regex semantics; `\d` is modelled as the ASCII digits `[0-9]`, the case
  relevant to version tags.
* The five external `git` invocations made by `main` are modelled as an
  injected `GitOracle` record holding the outcome each invocation would
  have (success value or the `RuntimeError` message `run_git` raises /
  the process return code for the direct `subprocess.run` ancestry call).
* `runGuard` embeds the body of `main` after the policy file has been
  loaded: argument parsing of the policy JSON is out of scope, so the
  policy tables arrive pre-parsed in `GuardInput`.  The wall-clock
  `generated_at` field and the constant schema-version strings of the
  report dictionary are omitted from `GuardReport`; every other field is
  kept.  Python exceptions that `main` does not catch (`RuntimeError`
  from the unguarded `git tag --list` call, `IndexError` from
  `line.split('"', 2)[1]`) are modelled as `MainResult.crash`, since they
  abort the process without writing a report.
-/

/-- Embeds Python `int()` applied to a nonempty ASCII digit string. -/
def digitsToNat (ds : List Char) : Nat :=
  ds.foldl (fun n c => n * 10 + (c.toNat - 48)) 0

/-- Reads a maximal nonempty run of leading ASCII digits, embedding a
`\d+` regex group that is followed by a non-digit delimiter or the end of
the string. -/
def readDigits (cs : List Char) : Option (List Char × List Char) :=
  if (cs.takeWhile Char.isDigit).isEmpty then none
  else some (cs.takeWhile Char.isDigit, cs.dropWhile Char.isDigit)

/-- Embeds the `\d+\.\d+\.\d+` part shared by both tag regexes; returns
the matched version text (the `version` named group) and the unconsumed
remainder of the input. -/
def parseTriple (cs : List Char) : Option (List Char × List Char) :=
  match readDigits cs with
  | none => none
  | some (d1, r1) =>
    match r1 with
    | [] => none
    | c1 :: cs2 =>
      if c1 = '.' then
        match readDigits cs2 with
        | none => none
        | some (d2, r2) =>
          match r2 with
          | [] => none
          | c2 :: cs3 =>
            if c2 = '.' then
              match readDigits cs3 with
              | none => none
              | some (d3, r3) => some (d1 ++ '.' :: d2 ++ '.' :: d3, r3)
            else none
      else none

/-- Embeds the common `^v(?P<version>\d+\.\d+\.\d+)` head of both tag
regexes: a literal `v` followed by the version triple. -/
def parseVersionPart : List Char → Option (List Char × List Char)
  | [] => none
  | c :: cs => if c = 'v' then parseTriple cs else none

/-- Embeds `STABLE_TAG_RE.fullmatch`: the version triple must be followed
by the end of the string. -/
def matchStable (cs : List Char) : Option (List Char) :=
  match parseVersionPart cs with
  | none => none
  | some (v, rest) =>
    match rest with
    | [] => some v
    | _ :: _ => none

/-- Consumes an exact literal character sequence. -/
def dropLit : List Char → List Char → Option (List Char)
  | [], cs => some cs
  | _ :: _, [] => none
  | l :: ls, c :: cs => if c = l then dropLit ls cs else none

/-- Embeds the `(?P<stage>alpha|beta|rc)` alternation of the pre-release
regex (the three alternatives start with distinct characters, so
first-match alternation is deterministic). -/
def matchStage (cs : List Char) : Option (String × List Char) :=
  match dropLit "alpha".data cs with
  | some r => some ("alpha", r)
  | none =>
    match dropLit "beta".data cs with
    | some r => some ("beta", r)
    | none =>
      match dropLit "rc".data cs with
      | some r => some ("rc", r)
      | none => none

/-- Embeds `PRERELEASE_TAG_RE.fullmatch`: version triple, `-`, stage,
`.`, sequence digits, end of string.  Returns the `version`, `stage`, and
`number` groups (the number still as digit text, as the regex captures
it). -/
def matchPre (cs : List Char) : Option (List Char × String × List Char) :=
  match parseVersionPart cs with
  | none => none
  | some (v, rest) =>
    match rest with
    | [] => none
    | c :: r1 =>
      if c = '-' then
        match matchStage r1 with
        | none => none
        | some (st, r2) =>
          match r2 with
          | [] => none
          | d :: r3 =>
            if d = '.' then
              match readDigits r3 with
              | none => none
              | some (num, r4) =>
                match r4 with
                | [] => some (v, st, num)
                | _ :: _ => none
            else none
      else none

/-- The triple `(version, stage, number)` returned by the Python
`parse_tag`: the matched version text, the stage name (`"stable"` for a
stable tag), and the optional pre-release sequence number. -/
structure ParsedTag where
  version : String
  stage : String
  number : Option Nat
deriving DecidableEq, Repr

/-- The `ValueError` message `parse_tag` raises on a tag matching neither
regex. -/
def malformedMsg (tag : String) : String :=
  "Tag `" ++ tag ++ "` must be `vX.Y.Z` or `vX.Y.Z-(alpha|beta|rc).N` (for example `v0.2.0-rc.1`)."

/-- Embeds the Python `parse_tag`: try the stable regex first, then the
pre-release regex, else raise `ValueError` (modelled as `.error`).  The
pre-release sequence number is converted with `int()` (`digitsToNat`). -/
def parse_tag (tag : String) : Except String ParsedTag :=
  match matchStable tag.data with
  | some v => .ok ⟨String.mk v, "stable", none⟩
  | none =>
    match matchPre tag.data with
    | some (v, st, num) => .ok ⟨String.mk v, st, some (digitsToNat num)⟩
    | none => .error (malformedMsg tag)

/-- Embeds the `STAGE_RANK` dictionary together with the `.get(s, 0)`
default used at both call sites. -/
def STAGE_RANK (s : String) : Nat :=
  if s = "alpha" then 1
  else if s = "beta" then 2
  else if s = "rc" then 3
  else if s = "stable" then 4
  else 0

/-- The `--mode` choice: `dry-run` (default) or `publish`. -/
inductive Mode where
  | dryRun
  | publish
deriving DecidableEq, BEq, Repr

/-- The command-line arguments and the pre-parsed stage-policy document
consumed by `main` (`required_previous_stage` and `required_checks` are
JSON objects, modelled as association lists). -/
structure GuardInput where
  tag : String
  mode : Mode
  failOnViolation : Bool
  requiredPrev : List (String × String)
  requiredChecks : List (String × List String)
deriving DecidableEq

/-- The outcome each external `git` invocation of `main` would have:
`.error` carries the `RuntimeError` message `run_git` raises on a
non-zero exit, and `isAncestorExit` is the raw process return code of the
direct `subprocess.run` call for `git merge-base --is-ancestor` (0 means
the commit is an ancestor, 1 means it is not, other codes mean the query
could not be executed). -/
structure GitOracle where
  fetch : Except String Unit
  revParse : Except String String
  isAncestorExit : Nat
  listTags : Except String (List String)
  showFile : Except String String

/-- The `tag_sha` variable of `main`: the stripped `git rev-parse` output
on success, the empty string if resolution failed. -/
def tagShaOf (git : GitOracle) : String :=
  match git.revParse with
  | .ok s => s
  | .error _ => ""

/-- Warning appended when the best-effort `git fetch` refresh fails. -/
def fetchWarning (git : GitOracle) : List String :=
  match git.fetch with
  | .ok _ => []
  | .error e => ["Failed to refresh origin refs/tags before validation: " ++ e]

/-- Violation message for a tag that `git rev-parse` cannot resolve. -/
def resolveMsg (tag e : String) : String :=
  "Unable to resolve tag `" ++ tag ++ "`: " ++ e

/-- Violation appended when tag resolution fails. -/
def resolveViolation (tag : String) (git : GitOracle) : List String :=
  match git.revParse with
  | .ok _ => []
  | .error e => [resolveMsg tag e]

/-- Violation message for the ancestry check. -/
def ancestryMsg (tag sha : String) : String :=
  "Tag `" ++ tag ++ "` (" ++ sha ++ ") is not reachable from `origin/main`; prerelease tags must originate from main."

/-- Violation appended when the tag resolved and `git merge-base
--is-ancestor` exited non-zero (the source does not distinguish a false
answer from a query that could not be executed). -/
def ancestryViolation (tag : String) (git : GitOracle) : List String :=
  if tagShaOf git ≠ "" ∧ git.isAncestorExit ≠ 0 then [ancestryMsg tag (tagShaOf git)] else []

/-- Models the tag filter `git` itself applies for
`git tag --list "v{version}*"`.  The version text contains only digits
and dots, so the fnmatch pattern is a literal followed by `*`, i.e. plain
string-prefix matching. -/
def globMatches (version t : String) : Bool :=
  ('v' :: version.data).isPrefixOf t.data

/-- The `sibling_tags` list of `main`: the lines `git tag --list
"v{version}*"` printed, with empty lines and the candidate itself
dropped (tag names carry no surrounding whitespace, so `line.strip()` is
the line itself). -/
def siblingTagsOf (tag version : String) (allTags : List String) : List String :=
  (allTags.filter (fun t => globMatches version t)).filter
    (fun t => decide (t ≠ "" ∧ t ≠ tag))

/-- The `sibling_stages` list of `main`: each sibling tag parsed, with
unparsable tags silently skipped. -/
def siblingStagesOf (tag version : String) (allTags : List String) : List String :=
  (siblingTagsOf tag version allTags).filterMap (fun t =>
    match parse_tag t with
    | .ok pt => some pt.stage
    | .error _ => none)

/-- Embeds `max(STAGE_RANK.get(s, 0) for s in sibling_stages)` (the
source only evaluates it on a nonempty list, where the 0 seed does not
change the maximum since ranks are naturals). -/
def maxRank (ss : List String) : Nat :=
  ss.foldl (fun acc s => Nat.max acc (STAGE_RANK s)) 0

/-- Violation message for a missing prerequisite stage. -/
def prereqMsg (stage p version tag : String) : String :=
  "Stage `" ++ stage ++ "` requires at least one `" ++ p ++ "` tag for version `" ++ version ++ "` before publishing `" ++ tag ++ "`."

/-- Violation appended when the policy names a previous stage for the
candidate's stage (Python truthiness: the empty string counts as absent)
and no sibling stage equals it. -/
def prereqViolation (inp : GuardInput) (pt : ParsedTag) (ss : List String) : List String :=
  match inp.requiredPrev.lookup pt.stage with
  | none => []
  | some p =>
    if p ≠ "" ∧ p ∉ ss then [prereqMsg pt.stage p pt.version inp.tag] else []

/-- Violation message for a stage regression. -/
def regressMsg (version stage : String) : String :=
  "Higher stage tags already exist for `" ++ version ++ "`. Refusing stage regression to `" ++ stage ++ "`."

/-- Violation appended when `sibling_stages` is nonempty and its highest
rank strictly exceeds the candidate's rank. -/
def regressViolation (pt : ParsedTag) (ss : List String) : List String :=
  if ss ≠ [] ∧ STAGE_RANK pt.stage < maxRank ss then [regressMsg pt.version pt.stage] else []

/-- Embeds Python `str.strip()` (over the whitespace characters relevant
to manifest lines). -/
def pyStrip (s : String) : String :=
  String.mk (((s.data.dropWhile Char.isWhitespace).reverse.dropWhile Char.isWhitespace).reverse)

/-- Splits at the first occurrence of `c`, if any. -/
def splitAtChar (c : Char) : List Char → Option (List Char × List Char)
  | [] => none
  | x :: xs =>
    if x = c then some ([], xs)
    else
      match splitAtChar c xs with
      | none => none
      | some (a, b) => some (x :: a, b)

/-- Embeds Python `s.split(c, 2)`: split on `c` at most twice. -/
def pySplit2 (c : Char) (cs : List Char) : List (List Char) :=
  match splitAtChar c cs with
  | none => [cs]
  | some (a, r) =>
    match splitAtChar c r with
    | none => [a, r]
    | some (b, r2) => [a, b, r2]

/-- Embeds the `for line in cargo_toml.splitlines()` scan of `main`: the
first stripped line starting with `version = ` yields
`line.split('"', 2)[1]` and breaks; a line with no `"` makes the `[1]`
index raise `IndexError` (modelled as `.error`), and if no line matches,
`cargo_version` keeps its initial empty-string value. -/
def extractFromLines : List String → Except String String
  | [] => .ok ""
  | line :: rest =>
    let l := pyStrip line
    if ("version = ".data).isPrefixOf l.data then
      match (pySplit2 '\"' l.data).get? 1 with
      | some v => .ok (String.mk v)
      | none => .error "IndexError: list index out of range"
    else extractFromLines rest

/-- Splits accumulated characters into lines at `\n` (helper for
`splitLines`). -/
def splitLinesAux : List Char → List Char → List String
  | [], acc => [String.mk acc.reverse]
  | c :: cs, acc =>
    if c = '\n' then String.mk acc.reverse :: splitLinesAux cs []
    else splitLinesAux cs (c :: acc)

/-- Embeds the newline splitting of `cargo_toml.splitlines()` for the
content at hand (manifest text uses `\n` line endings; a possible final
empty line is inert, since it cannot start with `version = `). -/
def splitLines (s : String) : List String :=
  splitLinesAux s.data []

/-- The manifest-version extraction applied to the `git show` output. -/
def extractCargoVersion (content : String) : Except String String :=
  extractFromLines (splitLines content)

/-- Violation message for the manifest read failing. -/
def cargoInspectMsg (tag e : String) : String :=
  "Failed to inspect Cargo.toml at `" ++ tag ++ "`: " ++ e

/-- The manifest step of `main`: skipped when the tag did not resolve;
a failing `git show` is caught and recorded as a violation; on success
the version is extracted from the content, which can crash (`.error`)
with `IndexError`.  Returns the violations this step appended together
with the resulting `cargo_version`. -/
def cargoStep (tag tagSha : String) (showRes : Except String String) :
    Except String (List String × String) :=
  if tagSha = "" then .ok ([], "")
  else
    match showRes with
    | .error e => .ok ([cargoInspectMsg tag e], "")
    | .ok content =>
      match extractCargoVersion content with
      | .error e => .error e
      | .ok v => .ok ([], v)

/-- Violation message for a tag/manifest version mismatch. -/
def mismatchMsg (tag version cv : String) : String :=
  "Tag `" ++ tag ++ "` version `" ++ version ++ "` does not match Cargo.toml version `" ++ cv ++ "` at the same ref."

/-- Violation appended when a nonempty `cargo_version` differs from the
tag's version. -/
def mismatchViolation (tag version cv : String) : List String :=
  if cv ≠ "" ∧ cv ≠ version then [mismatchMsg tag version cv] else []

/-- The full `violations` list of `main`, in the order the source appends
entries: resolve failure, ancestry, missing prerequisite, stage
regression, manifest-read failure, manifest mismatch. -/
def violationsFor (inp : GuardInput) (git : GitOracle) (pt : ParsedTag)
    (tags : List String) (inspectV : List String) (cv : String) : List String :=
  resolveViolation inp.tag git ++ ancestryViolation inp.tag git ++
    prereqViolation inp pt (siblingStagesOf inp.tag pt.version tags) ++
    regressViolation pt (siblingStagesOf inp.tag pt.version tags) ++
    inspectV ++ mismatchViolation inp.tag pt.version cv

/-- The report dictionary `main` builds (minus the wall-clock timestamp
and the constant schema-version strings). -/
structure GuardReport where
  tag : String
  tag_sha : Option String
  version : String
  stage : String
  stage_number : Option Nat
  mode : Mode
  ready_to_publish : Bool
  required_checks : List String
  sibling_tags : List String
  warnings : List String
  violations : List String
deriving DecidableEq, Repr

/-- Assembles the report exactly as `main` does (`tag_sha or None`,
`ready_to_publish = mode == "publish" and not violations`,
`required_checks.get(stage, [])`). -/
def buildReport (inp : GuardInput) (git : GitOracle) (pt : ParsedTag)
    (tags : List String) (inspectV : List String) (cv : String) : GuardReport :=
  { tag := inp.tag
    tag_sha := if tagShaOf git = "" then none else some (tagShaOf git)
    version := pt.version
    stage := pt.stage
    stage_number := pt.number
    mode := inp.mode
    ready_to_publish := (inp.mode == Mode.publish) && (violationsFor inp git pt tags inspectV cv).isEmpty
    required_checks := (inp.requiredChecks.lookup pt.stage).getD []
    sibling_tags := siblingTagsOf inp.tag pt.version tags
    warnings := fetchWarning git
    violations := violationsFor inp git pt tags inspectV cv }

/-- The exit code of a completed run:
`3 if args.fail_on_violation and violations else 0`. -/
def exitFor (inp : GuardInput) (violations : List String) : Nat :=
  if inp.failOnViolation && !violations.isEmpty then 3 else 0

/-- Outcome of one invocation of `main`: `usage` is the `return 2` taken
on a `ValueError` from `parse_tag`; `crash` is an exception `main` does
not catch (the process dies with a traceback and exit status 1 before
writing any report); `done` carries the report and the value `main`
returns. -/
inductive MainResult where
  | usage (msg : String)
  | crash (msg : String)
  | done (report : GuardReport) (exit : Nat)
deriving DecidableEq, Repr

/-- The run from the point where `git tag --list` has succeeded: the
manifest step either crashes (uncaught `IndexError`) or the report is
assembled. -/
def runAfterTags (inp : GuardInput) (git : GitOracle) (pt : ParsedTag)
    (tags : List String) : MainResult :=
  match cargoStep inp.tag (tagShaOf git) git.showFile with
  | .error e => .crash e
  | .ok (inspectV, cv) =>
    .done (buildReport inp git pt tags inspectV cv)
      (exitFor inp (violationsFor inp git pt tags inspectV cv))

/-- The run from the point where the tag has parsed: `git tag --list` is
the one `run_git` call `main` does not wrap in `try`, so its
`RuntimeError` propagates and aborts the process. -/
def runAfterParse (inp : GuardInput) (git : GitOracle) (pt : ParsedTag) : MainResult :=
  match git.listTags with
  | .error e => .crash e
  | .ok tags => runAfterTags inp git pt tags

/-- Embeds `main` (after the policy document has been loaded): parse the
tag first — a `ValueError` returns 2 before any `git` interaction — then
run the accumulated checks. -/
def runGuard (inp : GuardInput) (git : GitOracle) : MainResult :=
  match parse_tag inp.tag with
  | .error m => .usage m
  | .ok pt => runAfterParse inp git pt

/-- The process exit status each outcome produces: 2 from the `return 2`
usage path, 1 for an uncaught exception, and the returned value of a
completed run. -/
def exitCodeOf : MainResult → Nat
  | .usage _ => 2
  | .crash _ => 1
  | .done _ ec => ec

/-- Inputs exhibiting an ancestry query that could not be executed:
`git merge-base --is-ancestor` exits 128 (infrastructure failure, not a
false answer). -/
def c1Inp : GuardInput := ⟨"v1.0.0", Mode.publish, false, [], []⟩

/-- Oracle for `c1Inp`: everything succeeds except the ancestry query,
whose process exits 128. -/
def c1Git : GitOracle := ⟨.ok (), .ok "abc123", 128, .ok [], .ok "version = \"1.0.0\""⟩

/-- Inputs for a failing `git tag --list` invocation. -/
def c2Inp : GuardInput := ⟨"v1.0.0", Mode.publish, false, [], []⟩

/-- Oracle for `c2Inp`: only the tag-listing query fails. -/
def c2Git : GitOracle :=
  ⟨.ok (), .ok "abc123", 0, .error "fatal: not a git repository", .ok "version = \"1.0.0\""⟩

/-- A second parse-ok input whose tag listing fails. -/
def w2Inp : GuardInput := ⟨"v9.9.9", Mode.dryRun, true, [], []⟩

/-- Oracle where every query fails, tag listing with message `boom`. -/
def w2Git : GitOracle := ⟨.error "offline", .error "unknown revision", 1, .error "boom", .error "gone"⟩

/-- Candidate `v1.2.3-alpha.1` whose repository contains only the tag
`v1.2.30` — a different version triple that nevertheless matches the
glob `v1.2.3*`. -/
def c3Inp : GuardInput := ⟨"v1.2.3-alpha.1", Mode.publish, false, [], []⟩

/-- Oracle for `c3Inp`: the repository tag list is `[v1.2.30]`. -/
def c3Git : GitOracle := ⟨.ok (), .ok "fff111", 0, .ok ["v1.2.30"], .ok "version = \"1.2.3\""⟩

/-- Inputs where the manifest is absent at the resolved ref, so
`git show` fails. -/
def c4Inp : GuardInput := ⟨"v2.0.0", Mode.publish, false, [], []⟩

/-- Oracle for `c4Inp`: `git show v2.0.0:Cargo.toml` fails (file absent
at that ref); everything else succeeds. -/
def c4Git : GitOracle :=
  ⟨.ok (), .ok "sha4", 0, .ok [], .error "fatal: path Cargo.toml does not exist in v2.0.0"⟩

/-- Inputs with a violation (unresolvable tag) and without
`--fail-on-violation`. -/
def c5Inp : GuardInput := ⟨"v3.0.0", Mode.publish, false, [], []⟩

/-- Oracle for `c5Inp`: tag resolution fails, producing a violation. -/
def c5Git : GitOracle := ⟨.ok (), .error "fatal: ambiguous argument", 0, .ok [], .ok ""⟩

/-- Like `c5Inp` but with `--fail-on-violation` set. -/
def w5Inp : GuardInput := ⟨"v3.0.0", Mode.publish, true, [], []⟩

/-- An unparsable tag for the usage-error exit path. -/
def w5bInp : GuardInput := ⟨"not-a-tag", Mode.dryRun, false, [], []⟩

/-- Candidate `v1.0.0-alpha.1` in publish mode, with an existing
`v1.0.0-rc.1` sibling. -/
def w7Inp : GuardInput := ⟨"v1.0.0-alpha.1", Mode.publish, false, [], []⟩

/-- Candidate `v1.0.0-alpha.1` in dry-run mode. -/
def w7InpD : GuardInput := ⟨"v1.0.0-alpha.1", Mode.dryRun, false, [], []⟩

/-- Oracle whose repository holds the higher-stage sibling
`v1.0.0-rc.1`. -/
def w7Git : GitOracle := ⟨.ok (), .ok "aaa", 0, .ok ["v1.0.0-rc.1"], .ok "version = \"1.0.0\""⟩

/-- A clean dry-run evaluation (no violations anywhere). -/
def w8Inp : GuardInput := ⟨"v1.0.0", Mode.dryRun, false, [], []⟩

/-- Oracle for `w8Inp`: every query succeeds and the manifest agrees. -/
def w8Git : GitOracle := ⟨.ok (), .ok "bbb", 0, .ok [], .ok "version = \"1.0.0\""⟩

/-- A tag missing the leading `v`, hence unparsable. -/
def w9Inp : GuardInput := ⟨"1.2.3", Mode.publish, true, [], []⟩

/-- Inputs whose manifest is present and readable but has no
`version = ` line. -/
def w10Inp : GuardInput := ⟨"v1.1.0", Mode.publish, false, [], []⟩

/-- Oracle for `w10Inp`: `git show` succeeds with content lacking a
version line. -/
def w10Git : GitOracle := ⟨.ok (), .ok "ccc", 0, .ok ["v1.1.0-rc.1"], .ok "name = \"zeroclaw\""⟩

/-- A successful `readDigits` consumed a true split of its input. -/
theorem readDigits_shape {cs d r : List Char} (h : readDigits cs = some (d, r)) :
    cs = d ++ r := by
  unfold readDigits at h
  split at h
  · exact Option.noConfusion h
  · have h2 := Option.some.inj h
    rw [← (Prod.mk.injEq ..).mp h2 |>.1, ← (Prod.mk.injEq ..).mp h2 |>.2]
    exact (List.takeWhile_append_dropWhile _ _).symm

/-- A successful `parseTriple` consumed a true split of its input. -/
theorem parseTriple_shape {cs v r : List Char} (h : parseTriple cs = some (v, r)) :
    cs = v ++ r := by
  unfold parseTriple at h
  repeat' split at h
  all_goals try exact Option.noConfusion h
  rename_i x1 d1 r1a c1 cs2 h1 hc1 x2 d2 r2a c2 cs3 h2 hc2 x3 d3 r3 h3
  obtain ⟨hv, hr⟩ := Prod.mk.inj (Option.some.inj h)
  subst hv hr hc1 hc2
  have e1 := readDigits_shape h1
  have e2 := readDigits_shape h2
  have e3 := readDigits_shape h3
  subst e3; subst e2; subst e1
  simp

/-- A successful `parseVersionPart` consumed a literal `v` and then the
version text. -/
theorem parseVersionPart_shape {cs v r : List Char}
    (h : parseVersionPart cs = some (v, r)) : cs = 'v' :: (v ++ r) := by
  unfold parseVersionPart at h
  split at h
  · exact Option.noConfusion h
  next c cs' =>
    split at h
    next hc => rw [hc, parseTriple_shape h]
    next => exact Option.noConfusion h

/-- A stable match is a version part with nothing left over. -/
theorem matchStable_shape {cs v : List Char} (h : matchStable cs = some v) :
    parseVersionPart cs = some (v, []) := by
  unfold matchStable at h
  repeat' split at h
  all_goals try exact Option.noConfusion h
  rename_i x d rr hpv
  rw [hpv, Option.some.inj h]

/-- A pre-release match starts with the same version part. -/
theorem matchPre_shape {cs v : List Char} {st : String} {num : List Char}
    (h : matchPre cs = some (v, st, num)) :
    ∃ rest, parseVersionPart cs = some (v, rest) := by
  unfold matchPre at h
  repeat' split at h
  all_goals try exact Option.noConfusion h
  rename_i x1 v1 r1a c1 cs1 hpv hc1 x2 st1 r2a c2 cs2 hst hc2 x3 d3 r3a hrd
  exact ⟨c1 :: cs1, by rw [hpv, (Prod.mk.inj (Option.some.inj h)).1]⟩

/-- Every successfully parsed tag string starts with `v` followed by its
version text. -/
theorem parse_tag_shape {t : String} {pt : ParsedTag} (h : parse_tag t = .ok pt) :
    ∃ rest, t.data = 'v' :: (pt.version.data ++ rest) := by
  unfold parse_tag at h
  split at h
  next v hs =>
    have hpt := Except.ok.inj h
    have hpv := matchStable_shape hs
    refine ⟨[], ?_⟩
    rw [← hpt]
    simpa using parseVersionPart_shape hpv
  next hs =>
    split at h
    next v st num hm =>
      have hpt := Except.ok.inj h
      obtain ⟨rest, hpv⟩ := matchPre_shape hm
      refine ⟨rest, ?_⟩
      rw [← hpt]
      simpa using parseVersionPart_shape hpv
    next => exact Except.noConfusion h

/-- A list is a Boolean prefix of itself followed by anything. -/
theorem isPrefixOf_self_append (l r : List Char) : l.isPrefixOf (l ++ r) = true := by
  induction l with
  | nil => simp [List.isPrefixOf]
  | cons x xs ih =>
    show (x == x && xs.isPrefixOf (xs ++ r)) = true
    simp [ih]

/-- The running maximum never drops below its seed. -/
theorem init_le_foldlMax : ∀ (l : List String) (i : Nat),
    i ≤ l.foldl (fun acc s => Nat.max acc (STAGE_RANK s)) i := by
  intro l
  induction l with
  | nil => intro i; exact Nat.le_refl i
  | cons x xs ih =>
    intro i
    exact Nat.le_trans (Nat.le_max_left i (STAGE_RANK x)) (ih _)

/-- The running maximum dominates the rank of every list member. -/
theorem rank_le_foldlMax : ∀ {l : List String} {s : String}, s ∈ l →
    ∀ i, STAGE_RANK s ≤ l.foldl (fun acc t => Nat.max acc (STAGE_RANK t)) i := by
  intro l
  induction l with
  | nil => intro s h; cases h
  | cons x xs ih =>
    intro s h i
    rcases List.mem_cons.mp h with h1 | h1
    · subst h1
      exact Nat.le_trans (Nat.le_max_right i (STAGE_RANK s)) (init_le_foldlMax xs _)
    · exact ih h1 _

/-- `maxRank` dominates the rank of every member. -/
theorem le_maxRank {s : String} {ss : List String} (h : s ∈ ss) :
    STAGE_RANK s ≤ maxRank ss :=
  rank_le_foldlMax h 0

/-- A repository tag distinct from the candidate whose text starts with
`v` plus the version text lands in the sibling list. -/
theorem mem_siblingTagsOf {tag version t : String} {allTags : List String}
    (ht : t ∈ allTags) (hne : t ≠ tag)
    (hd : ∃ rest, t.data = 'v' :: (version.data ++ rest)) :
    t ∈ siblingTagsOf tag version allTags := by
  obtain ⟨rest, hdata⟩ := hd
  have hnil : t ≠ "" := by
    intro h0
    rw [h0] at hdata
    exact absurd hdata (by simp)
  unfold siblingTagsOf
  refine List.mem_filter.mpr ⟨List.mem_filter.mpr ⟨ht, ?_⟩, ?_⟩
  · unfold globMatches
    rw [hdata, ← List.cons_append]
    exact isPrefixOf_self_append _ _
  · exact decide_eq_true ⟨hnil, hne⟩

/-- A parseable sibling tag contributes its stage to the stage list. -/
theorem mem_siblingStagesOf {tag version t : String} {allTags : List String}
    {pt : ParsedTag} (hmem : t ∈ siblingTagsOf tag version allTags)
    (hp : parse_tag t = .ok pt) :
    pt.stage ∈ siblingStagesOf tag version allTags := by
  unfold siblingStagesOf
  exact List.mem_filterMap.mpr ⟨t, hmem, by rw [hp]⟩

/-- Inversion of a completed run: when the tag parses and the run
reaches `done`, the tag listing and the manifest step succeeded and the
report is `buildReport` of the intermediate values. -/
theorem runGuard_done_inv {inp : GuardInput} {git : GitOracle} {pt : ParsedTag}
    {r : GuardReport} {ec : Nat}
    (hp : parse_tag inp.tag = .ok pt) (h : runGuard inp git = .done r ec) :
    ∃ tags iv cv, git.listTags = .ok tags ∧
      cargoStep inp.tag (tagShaOf git) git.showFile = .ok (iv, cv) ∧
      r = buildReport inp git pt tags iv cv ∧
      ec = exitFor inp (violationsFor inp git pt tags iv cv) := by
  simp only [runGuard, hp] at h
  cases hl : git.listTags with
  | error e =>
    simp only [runAfterParse, hl] at h
    exact MainResult.noConfusion h
  | ok tags =>
    simp only [runAfterParse, hl] at h
    cases hc : cargoStep inp.tag (tagShaOf git) git.showFile with
    | error e =>
      simp only [runAfterTags, hc] at h
      exact MainResult.noConfusion h
    | ok p =>
      obtain ⟨iv, cv⟩ := p
      simp only [runAfterTags, hc] at h
      cases h
      exact ⟨tags, iv, cv, rfl, rfl, rfl, rfl⟩

/-- Any recorded violation forces `ready_to_publish` to be false. -/
theorem ready_false_of_violation {inp : GuardInput} {git : GitOracle} {pt : ParsedTag}
    {tags iv : List String} {cv m : String}
    (hm : m ∈ violationsFor inp git pt tags iv cv) :
    (buildReport inp git pt tags iv cv).ready_to_publish = false := by
  have hE : (violationsFor inp git pt tags iv cv).isEmpty = false := by
    cases hE : (violationsFor inp git pt tags iv cv).isEmpty
    · rfl
    · rw [List.isEmpty_iff.mp hE] at hm
      cases hm
  show ((inp.mode == Mode.publish) && (violationsFor inp git pt tags iv cv).isEmpty) = false
  rw [hE, Bool.and_false]

/-- C6: for every string the two tag grammars are mutually exclusive —
no string matches both the stable and the pre-release regex — and the
four reference examples behave as specified: `v1.2.3` parses as
Stable(1,2,3), `v1.2.3-rc.4` parses as Prerelease(1,2,3,rc,4), while
`v1.2.3-rc` and `1.2.3` fail with the malformed-tag error. -/
theorem tag_grammar_exclusive_and_examples :
    (∀ s : String, ((matchStable s.data).isSome && (matchPre s.data).isSome) = false) ∧
    parse_tag "v1.2.3" = .ok ⟨"1.2.3", "stable", none⟩ ∧
    parse_tag "v1.2.3-rc.4" = .ok ⟨"1.2.3", "rc", some 4⟩ ∧
    parse_tag "v1.2.3-rc" = .error (malformedMsg "v1.2.3-rc") ∧
    parse_tag "1.2.3" = .error (malformedMsg "1.2.3") := by
  refine ⟨fun s => ?_, rfl, rfl, rfl, rfl⟩
  unfold matchStable matchPre
  cases hpv : parseVersionPart s.data with
  | none => simp
  | some p =>
    obtain ⟨v, rest⟩ := p
    cases rest with
    | nil => simp
    | cons c r1 => simp

/-- C8: in every completed evaluation, `ready_to_publish` equals
(mode is publish) AND (the violation list is empty); hence in dry-run
mode it is false for every candidate and every violation set. -/
theorem ready_iff_publish_and_clean (inp : GuardInput) (git : GitOracle)
    (r : GuardReport) (ec : Nat) (h : runGuard inp git = .done r ec) :
    r.ready_to_publish = ((inp.mode == Mode.publish) && r.violations.isEmpty) ∧
    (inp.mode = Mode.dryRun → r.ready_to_publish = false) := by
  cases hp : parse_tag inp.tag with
  | error m =>
    simp only [runGuard, hp] at h
    exact MainResult.noConfusion h
  | ok pt =>
    obtain ⟨tags, iv, cv, hl, hc, hr, he⟩ := runGuard_done_inv hp h
    subst hr
    refine ⟨rfl, fun hm => ?_⟩
    show ((inp.mode == Mode.publish) && _) = false
    rw [hm]
    rfl

/-- Witness for C8 at a concrete clean dry-run evaluation. -/
theorem ready_iff_publish_and_clean_witness :
    (buildReport w8Inp w8Git ⟨"1.0.0", "stable", none⟩ [] [] "1.0.0").ready_to_publish = false :=
  (ready_iff_publish_and_clean w8Inp w8Git
    (buildReport w8Inp w8Git ⟨"1.0.0", "stable", none⟩ [] [] "1.0.0") 0 rfl).2 rfl

/-- C9: an unparsable candidate tag makes the run stop with the
malformed-tag usage error (`return 2`) before any oracle interaction —
the outcome is the same for every oracle, and the usage exit code 2 is
distinct from a Verdict with violations. -/
theorem malformed_tag_fails_before_oracle (inp : GuardInput) (git git' : GitOracle)
    (m : String) (h : parse_tag inp.tag = .error m) :
    runGuard inp git = .usage m ∧ runGuard inp git' = .usage m ∧
    exitCodeOf (runGuard inp git) = 2 := by
  refine ⟨?_, ?_, ?_⟩ <;> simp only [runGuard, h, exitCodeOf]

/-- Witness for C9 at the concrete unparsable tag `1.2.3`, under two
different oracles. -/
theorem malformed_tag_fails_before_oracle_witness :
    runGuard w9Inp w2Git = .usage (malformedMsg "1.2.3") ∧
    runGuard w9Inp w7Git = .usage (malformedMsg "1.2.3") ∧
    exitCodeOf (runGuard w9Inp w2Git) = 2 :=
  malformed_tag_fails_before_oracle w9Inp w2Git w7Git (malformedMsg "1.2.3") rfl

/-- C7: whenever some listed sibling tag with the same version triple
has a stage of strictly higher rank than the candidate, every completed
run records the stage-regression violation and `ready_to_publish` is
false (in particular regardless of mode). -/
theorem stage_regression_recorded (inp : GuardInput) (git : GitOracle)
    (pt pt' : ParsedTag) (t : String) (tags : List String) (r : GuardReport) (ec : Nat)
    (hp : parse_tag inp.tag = .ok pt)
    (hl : git.listTags = .ok tags)
    (ht : t ∈ tags) (hne : t ≠ inp.tag)
    (hpt : parse_tag t = .ok pt')
    (hv : pt'.version = pt.version)
    (hrank : STAGE_RANK pt.stage < STAGE_RANK pt'.stage)
    (hrun : runGuard inp git = .done r ec) :
    regressMsg pt.version pt.stage ∈ r.violations ∧ r.ready_to_publish = false := by
  obtain ⟨tags0, iv, cv, hl0, hc, hr, he⟩ := runGuard_done_inv hp hrun
  rw [hl] at hl0
  have htags : tags0 = tags := (Except.ok.inj hl0).symm
  subst htags
  subst hr
  have hdata := parse_tag_shape hpt
  rw [hv] at hdata
  have hmemT : t ∈ siblingTagsOf inp.tag pt.version tags0 := mem_siblingTagsOf ht hne hdata
  have hmemS : pt'.stage ∈ siblingStagesOf inp.tag pt.version tags0 :=
    mem_siblingStagesOf hmemT hpt
  have hreg : regressViolation pt (siblingStagesOf inp.tag pt.version tags0) =
      [regressMsg pt.version pt.stage] := by
    unfold regressViolation
    rw [if_pos ⟨List.ne_nil_of_mem hmemS, Nat.lt_of_lt_of_le hrank (le_maxRank hmemS)⟩]
  have hmemV : regressMsg pt.version pt.stage ∈ violationsFor inp git pt tags0 iv cv := by
    unfold violationsFor
    simp [List.mem_append, hreg]
  exact ⟨hmemV, ready_false_of_violation hmemV⟩

/-- Witness for C7 at the reference instance — siblings
`[v1.0.0-rc.1]`, candidate `v1.0.0-alpha.1` — in publish and in dry-run
mode. -/
theorem stage_regression_recorded_witness :
    (regressMsg "1.0.0" "alpha" ∈
        (buildReport w7Inp w7Git ⟨"1.0.0", "alpha", some 1⟩ ["v1.0.0-rc.1"] [] "1.0.0").violations ∧
      (buildReport w7Inp w7Git ⟨"1.0.0", "alpha", some 1⟩ ["v1.0.0-rc.1"] [] "1.0.0").ready_to_publish = false) ∧
    (regressMsg "1.0.0" "alpha" ∈
        (buildReport w7InpD w7Git ⟨"1.0.0", "alpha", some 1⟩ ["v1.0.0-rc.1"] [] "1.0.0").violations ∧
      (buildReport w7InpD w7Git ⟨"1.0.0", "alpha", some 1⟩ ["v1.0.0-rc.1"] [] "1.0.0").ready_to_publish = false) :=
  ⟨stage_regression_recorded w7Inp w7Git ⟨"1.0.0", "alpha", some 1⟩ ⟨"1.0.0", "rc", some 1⟩
      "v1.0.0-rc.1" ["v1.0.0-rc.1"] _ 0 rfl rfl (by decide) (by decide) rfl rfl (by decide) rfl,
    stage_regression_recorded w7InpD w7Git ⟨"1.0.0", "alpha", some 1⟩ ⟨"1.0.0", "rc", some 1⟩
      "v1.0.0-rc.1" ["v1.0.0-rc.1"] _ 0 rfl rfl (by decide) (by decide) rfl rfl (by decide) rfl⟩

/-- C1 (amended): whenever the tag resolves and the ancestry process
exits non-zero — including exit codes meaning the query could not be
executed at all, such as 128 — every completed run records the
not-reachable violation (never a warning) and `ready_to_publish` is
false; the warning path exists only for the best-effort fetch refresh. -/
theorem ancestry_nonzero_exit_is_violation (inp : GuardInput) (git : GitOracle)
    (pt : ParsedTag) (sha : String) (r : GuardReport) (ec : Nat)
    (hp : parse_tag inp.tag = .ok pt)
    (hres : git.revParse = .ok sha) (hsha : sha ≠ "")
    (hex : git.isAncestorExit ≠ 0)
    (hrun : runGuard inp git = .done r ec) :
    ancestryMsg inp.tag sha ∈ r.violations ∧ r.ready_to_publish = false := by
  obtain ⟨tags, iv, cv, hl, hc, hr, he⟩ := runGuard_done_inv hp hrun
  subst hr
  have hts : tagShaOf git = sha := by unfold tagShaOf; rw [hres]
  have hanc : ancestryViolation inp.tag git = [ancestryMsg inp.tag sha] := by
    unfold ancestryViolation
    rw [hts, if_pos ⟨hsha, hex⟩]
  have hmemV : ancestryMsg inp.tag sha ∈ violationsFor inp git pt tags iv cv := by
    unfold violationsFor
    simp [List.mem_append, hanc]
  exact ⟨hmemV, ready_false_of_violation hmemV⟩

/-- Witness for C1 (amended) at the concrete exit-code-128 oracle. -/
theorem ancestry_nonzero_exit_is_violation_witness :
    ancestryMsg "v1.0.0" "abc123" ∈
      (buildReport c1Inp c1Git ⟨"1.0.0", "stable", none⟩ [] [] "1.0.0").violations ∧
    (buildReport c1Inp c1Git ⟨"1.0.0", "stable", none⟩ [] [] "1.0.0").ready_to_publish = false :=
  ancestry_nonzero_exit_is_violation c1Inp c1Git ⟨"1.0.0", "stable", none⟩ "abc123" _ 0
    rfl rfl (by decide) (by decide) rfl

/-- Counterexample to C1 as stated: the ancestry query cannot be
executed (`git merge-base` exits 128, an infrastructure failure, with
everything else clean and mode publish), yet the run records a violation
and no warning, and `ready_to_publish` is false — the claim predicted a
warning, an empty violation list, and readiness. -/
theorem ancestry_unavailable_counterexample :
    runGuard c1Inp c1Git =
      .done ⟨"v1.0.0", some "abc123", "1.0.0", "stable", none, Mode.publish, false, [], [],
        [], [ancestryMsg "v1.0.0" "abc123"]⟩ 0 := rfl

/-- C2 (amended): once the tag parses, resolve, ancestry, and
manifest-read failures are absorbed into the verdict, but a failing
`git tag --list` raises an uncaught error that aborts the run with no
verdict; with the tag listing succeeding and the manifest scan not
crashing, the run always completes with the assembled report. -/
theorem list_tags_error_aborts_run (inp : GuardInput) (git : GitOracle) (pt : ParsedTag)
    (hp : parse_tag inp.tag = .ok pt) :
    (∀ e, git.listTags = .error e → runGuard inp git = .crash e) ∧
    (∀ tags iv cv, git.listTags = .ok tags →
      cargoStep inp.tag (tagShaOf git) git.showFile = .ok (iv, cv) →
      runGuard inp git = .done (buildReport inp git pt tags iv cv)
        (exitFor inp (violationsFor inp git pt tags iv cv))) := by
  constructor
  · intro e he
    simp only [runGuard, hp, runAfterParse, he]
  · intro tags iv cv hl hc
    simp only [runGuard, hp, runAfterParse, hl, runAfterTags, hc]

/-- Witness for C2 (amended): a parseable tag whose tag listing fails
with `boom` crashes the run. -/
theorem list_tags_error_aborts_run_witness :
    runGuard w2Inp w2Git = .crash "boom" :=
  (list_tags_error_aborts_run w2Inp w2Git ⟨"9.9.9", "stable", none⟩ rfl).1 "boom" rfl

/-- Counterexample to C2 as stated: the candidate tag `v1.0.0` parses,
yet a tag-listing failure aborts the run with an uncaught error instead
of completing with a full verdict. -/
theorem list_tags_error_crash_counterexample :
    runGuard c2Inp c2Git = .crash "fatal: not a git repository" := rfl

/-- C3 exhibit: the tag `v1.2.30` has version triple (1,2,30), different
from the candidate triple (1,2,3), yet it matches the glob `v1.2.3*`,
enters the sibling list, and its `stable` stage triggers a spurious
stage-regression violation against candidate `v1.2.3-alpha.1` — so a tag
with a different version triple does contribute a stage, contradicting
the claim and the evident intent. -/
theorem glob_overmatch_spurious_regression :
    runGuard c3Inp c3Git =
      .done ⟨"v1.2.3-alpha.1", some "fff111", "1.2.3", "alpha", some 1, Mode.publish, false,
        [], ["v1.2.30"], [], [regressMsg "1.2.3" "alpha"]⟩ 0 ∧
    parse_tag "v1.2.30" = .ok ⟨"1.2.30", "stable", none⟩ := ⟨rfl, rfl⟩

/-- C4 (amended): when the tag resolves but the manifest cannot be read
at that ref — which is how an absent `Cargo.toml` manifests, since
`git show` then fails — every completed run records the
failed-to-inspect violation; the manifest step never records a warning
(the warnings list stays exactly the fetch-refresh warnings). -/
theorem manifest_read_failure_is_violation (inp : GuardInput) (git : GitOracle)
    (pt : ParsedTag) (sha e : String) (r : GuardReport) (ec : Nat)
    (hp : parse_tag inp.tag = .ok pt)
    (hres : git.revParse = .ok sha) (hsha : sha ≠ "")
    (hshow : git.showFile = .error e)
    (hrun : runGuard inp git = .done r ec) :
    cargoInspectMsg inp.tag e ∈ r.violations ∧ r.warnings = fetchWarning git := by
  obtain ⟨tags, iv, cv, hl, hc, hr, he⟩ := runGuard_done_inv hp hrun
  subst hr
  have hts : tagShaOf git = sha := by unfold tagShaOf; rw [hres]
  have hcv : cargoStep inp.tag (tagShaOf git) git.showFile =
      .ok ([cargoInspectMsg inp.tag e], "") := by
    unfold cargoStep
    rw [hts, if_neg hsha, hshow]
  rw [hcv] at hc
  obtain ⟨hiv, hcv2⟩ := Prod.mk.inj (Except.ok.inj hc)
  subst hiv
  refine ⟨?_, rfl⟩
  show cargoInspectMsg inp.tag e ∈ violationsFor inp git pt tags [cargoInspectMsg inp.tag e] cv
  unfold violationsFor
  simp [List.mem_append]

/-- Witness for C4 (amended) at the concrete absent-manifest oracle. -/
theorem manifest_read_failure_is_violation_witness :
    cargoInspectMsg "v2.0.0" "fatal: path Cargo.toml does not exist in v2.0.0" ∈
      (buildReport c4Inp c4Git ⟨"2.0.0", "stable", none⟩ []
        [cargoInspectMsg "v2.0.0" "fatal: path Cargo.toml does not exist in v2.0.0"] "").violations ∧
    (buildReport c4Inp c4Git ⟨"2.0.0", "stable", none⟩ []
      [cargoInspectMsg "v2.0.0" "fatal: path Cargo.toml does not exist in v2.0.0"] "").warnings =
      fetchWarning c4Git :=
  manifest_read_failure_is_violation c4Inp c4Git ⟨"2.0.0", "stable", none⟩ "sha4"
    "fatal: path Cargo.toml does not exist in v2.0.0" _ 0 rfl rfl (by decide) rfl rfl

/-- Counterexample to C4 as stated: the manifest is absent at the
resolved ref (the read fails), and the run records a violation rather
than skipping silently — the claim predicted neither violation nor
warning. -/
theorem manifest_read_failure_counterexample :
    runGuard c4Inp c4Git =
      .done ⟨"v2.0.0", some "sha4", "2.0.0", "stable", none, Mode.publish, false, [], [], [],
        [cargoInspectMsg "v2.0.0" "fatal: path Cargo.toml does not exist in v2.0.0"]⟩ 0 := rfl

/-- C5 (amended): a completed evaluation returns
`3 if fail_on_violation and violations else 0` — so exit 0 means either
no violations or the `--fail-on-violation` flag not passed; with the
flag set, violations give exit 3, distinct from the usage exit 2 taken
on an unparsable tag. -/
theorem exit_code_semantics (inp : GuardInput) (git : GitOracle) :
    (∀ r ec, runGuard inp git = .done r ec →
      ec = exitFor inp r.violations ∧
      (inp.failOnViolation = false → ec = 0) ∧
      (r.violations = [] → ec = 0) ∧
      (inp.failOnViolation = true → r.violations ≠ [] → ec = 3)) ∧
    (∀ m, parse_tag inp.tag = .error m → exitCodeOf (runGuard inp git) = 2) := by
  constructor
  · intro r ec h
    cases hp : parse_tag inp.tag with
    | error m =>
      simp only [runGuard, hp] at h
      exact MainResult.noConfusion h
    | ok pt =>
      obtain ⟨tags, iv, cv, hl, hc, hr, he⟩ := runGuard_done_inv hp h
      subst hr
      subst he
      refine ⟨rfl, fun hf => ?_, fun hv => ?_, fun hf hv => ?_⟩
      · unfold exitFor
        rw [hf]
        rfl
      · unfold exitFor
        have hv2 : violationsFor inp git pt tags iv cv = [] := hv
        rw [hv2]
        simp
      · unfold exitFor
        have hv2 : violationsFor inp git pt tags iv cv ≠ [] := hv
        rw [hf]
        cases hL : violationsFor inp git pt tags iv cv with
        | nil => exact absurd hL hv2
        | cons a as => simp [hL]
  · intro m hm
    simp only [runGuard, hm, exitCodeOf]

/-- Witness for C5 (amended): with `--fail-on-violation` and an
unresolvable tag the returned code 3 agrees with `exitFor`, and an
unparsable tag exits with the usage code 2. -/
theorem exit_code_semantics_witness :
    (3 : Nat) = exitFor w5Inp
      (buildReport w5Inp c5Git ⟨"3.0.0", "stable", none⟩ [] [] "").violations ∧
    exitCodeOf (runGuard w5bInp w2Git) = 2 :=
  ⟨((exit_code_semantics w5Inp c5Git).1
      (buildReport w5Inp c5Git ⟨"3.0.0", "stable", none⟩ [] [] "") 3 rfl).1,
    (exit_code_semantics w5bInp w2Git).2 (malformedMsg "not-a-tag") rfl⟩

/-- Counterexample to C5 as stated: the evaluation completes with a
nonempty violation list (the tag is unresolvable), yet without
`--fail-on-violation` the run returns exit code 0. -/
theorem violations_exit_zero_counterexample :
    runGuard c5Inp c5Git =
      .done ⟨"v3.0.0", none, "3.0.0", "stable", none, Mode.publish, false, [], [], [],
        [resolveMsg "v3.0.0" "fatal: ambiguous argument"]⟩ 0 := rfl

/-- C10: when the tag resolves, the manifest is read successfully, and
the scan extracts the empty version string — no `version = ` line, or an
empty quoted version — every completed run leaves the violation list
exactly the contributions of the other checks (the manifest step adds
nothing) and the warnings exactly the fetch-refresh warnings. -/
theorem manifest_without_version_skips_silently (inp : GuardInput) (git : GitOracle)
    (pt : ParsedTag) (sha content : String) (tags : List String) (r : GuardReport) (ec : Nat)
    (hp : parse_tag inp.tag = .ok pt)
    (hres : git.revParse = .ok sha) (hsha : sha ≠ "")
    (hshow : git.showFile = .ok content)
    (hext : extractCargoVersion content = .ok "")
    (hl : git.listTags = .ok tags)
    (hrun : runGuard inp git = .done r ec) :
    r.violations =
      resolveViolation inp.tag git ++ ancestryViolation inp.tag git ++
        prereqViolation inp pt (siblingStagesOf inp.tag pt.version tags) ++
        regressViolation pt (siblingStagesOf inp.tag pt.version tags) ∧
    r.warnings = fetchWarning git := by
  obtain ⟨tags0, iv, cv, hl0, hc, hr, he⟩ := runGuard_done_inv hp hrun
  rw [hl] at hl0
  have htags : tags0 = tags := (Except.ok.inj hl0).symm
  subst htags
  subst hr
  have hts : tagShaOf git = sha := by unfold tagShaOf; rw [hres]
  have hcv : cargoStep inp.tag (tagShaOf git) git.showFile = .ok ([], "") := by
    unfold cargoStep
    rw [hts, if_neg hsha, hshow]
    dsimp only
    rw [hext]
  rw [hcv] at hc
  obtain ⟨hiv, hcv2⟩ := Prod.mk.inj (Except.ok.inj hc)
  subst hiv
  subst hcv2
  refine ⟨?_, rfl⟩
  show violationsFor inp git pt tags0 [] "" = _
  unfold violationsFor mismatchViolation
  simp

/-- Witness for C10 at a concrete manifest with no version line. -/
theorem manifest_without_version_skips_silently_witness :
    (buildReport w10Inp w10Git ⟨"1.1.0", "stable", none⟩ ["v1.1.0-rc.1"] [] "").violations =
      resolveViolation "v1.1.0" w10Git ++ ancestryViolation "v1.1.0" w10Git ++
        prereqViolation w10Inp ⟨"1.1.0", "stable", none⟩
          (siblingStagesOf "v1.1.0" "1.1.0" ["v1.1.0-rc.1"]) ++
        regressViolation ⟨"1.1.0", "stable", none⟩
          (siblingStagesOf "v1.1.0" "1.1.0" ["v1.1.0-rc.1"]) ∧
    (buildReport w10Inp w10Git ⟨"1.1.0", "stable", none⟩ ["v1.1.0-rc.1"] [] "").warnings =
      fetchWarning w10Git :=
  manifest_without_version_skips_silently w10Inp w10Git ⟨"1.1.0", "stable", none⟩ "ccc"
    "name = \"zeroclaw\"" ["v1.1.0-rc.1"] _ 0 rfl rfl (by decide) rfl rfl rfl rfl
